import Mathlib

/-!
Shallow embedding of `src/services/EmailNotificationService.ts` from the
notification-service-delicious-kitchen repository, together with theorems
settling the specification claims about its delivery behaviour.

The TypeScript service is stateful (a transporter field and an
`isConfigured` flag set at construction) and effectful (SMTP sends, logs).
The embedding makes the state an explicit `ServiceState`, models the
environment (`process.env`) as a record of optional strings, and models the
fallible `transporter.sendMail` collaborator as a function from the call
index to an `Except` value (`.error` = the promise rejected / an exception
was thrown).  Each public method becomes a pure function returning
`Except String SendOutcome`: an `.error` result would mean the method let an
exception escape to its caller, while `.ok` carries the boolean the method
resolves with plus the observable interaction with the transporter (number
of `sendMail` calls and the payloads handed over).  Log lines are ignored.
-/

namespace DeliciousKitchen

/-- One element of the `items` array handed to the notification methods:
`{ name: string; quantity: number; price?: number }`.  The optional price is
never read by any code path of the service (templates use only `quantity`
and `name`), so its numeric type is immaterial; it is kept as a `Nat`
option. -/
structure OrderItem where
  name : String
  quantity : Nat
  price : Option Nat := none
deriving Repr, DecidableEq

/-- The slice of `process.env` the service reads.  `none` models an unset
variable; `some s` a variable set to the string `s`.  `SMTP_PORT` and
`SMTP_SECURE` are consumed only inside the opaque nodemailer transport
configuration and never influence the control flow modelled here, so they
are omitted. -/
structure Env where
  smtpHost : Option String
  smtpUser : Option String
  smtpPassword : Option String
  emailFrom : Option String
  frontendUrl : Option String
deriving Repr, DecidableEq

/-- JavaScript truthiness of a possibly-unset string variable: an env var is
falsy exactly when it is unset or the empty string (`!smtpHost` in the
source). -/
def truthy : Option String → Bool
  | none => false
  | some s => !(s == "")

/-- JavaScript `x || d` on a possibly-unset string `x`: the default `d` is
used when `x` is unset or empty. -/
def orDefault (x : Option String) (d : String) : String :=
  match x with
  | none => d
  | some s => if s == "" then d else s

/-- Mutable state of an `EmailNotificationService` instance: whether the
`transporter` field was ever assigned, and the `isConfigured` flag. -/
structure ServiceState where
  transporterAssigned : Bool
  isConfigured : Bool
deriving Repr, DecidableEq

/-- Embeds `initializeTransporter` (run from the constructor) composed with
the settled outcome of `verifyConnection`.  If any of `SMTP_HOST`,
`SMTP_USER`, `SMTP_PASSWORD` is unset or empty the transporter is never
assigned and `isConfigured` stays `false`; otherwise the transporter is
assigned, `isConfigured` is set to `true`, and `verifyConnection` resets it
to `false` when `transporter.verify()` fails (`verifySucceeds = false`). -/
def initializeTransporter (env : Env) (verifySucceeds : Bool) : ServiceState :=
  if !truthy env.smtpHost || !truthy env.smtpUser || !truthy env.smtpPassword then
    { transporterAssigned := false, isConfigured := false }
  else
    { transporterAssigned := true, isConfigured := verifySucceeds }

/-- The characters matched by `\s` in the source's email regex, restricted
to the ASCII whitespace characters (the Unicode space separators JavaScript
also includes are irrelevant to every input considered here). -/
def isJsSpace (c : Char) : Bool :=
  c == ' ' || c == '\t' || c == '\n' || c == '\r' || c == '\x0b' || c == '\x0c'

/-- A character admissible in each of the three `[^\s@]+` atoms of the
email regex: neither whitespace nor `@`. -/
def isAtomChar (c : Char) : Bool :=
  !isJsSpace c && !(c == '@')

/-- True when the character list has a `.` at an interior position (neither
first nor last); this is what makes the `[^\s@]+\.[^\s@]+` tail of the regex
matchable, since the part before the matched dot and the part after it must
both be non-empty. -/
def hasInteriorDot : List Char → Bool
  | [] => false
  | _ :: rest => rest.dropLast.contains '.'

/-- Embeds `isValidEmail`: `/^[^\s@]+@[^\s@]+\.[^\s@]+$/.test(email)`, with
the leading `!email` guard.  The regex matches exactly when the string
splits as `a ++ "@" ++ d` with `a` a non-empty run of non-space non-`@`
characters and `d` a non-space non-`@` run containing a dot at an interior
position (the regex's `b "." c` with `b`, `c` non-empty). -/
def isValidEmail (email : String) : Bool :=
  let cs := email.data
  let localPart := cs.takeWhile (fun c => !(c == '@'))
  let domainPart := (cs.dropWhile (fun c => !(c == '@'))).drop 1
  cs.count '@' == 1 &&
  !localPart.isEmpty &&
  localPart.all isAtomChar &&
  domainPart.all isAtomChar &&
  hasInteriorDot domainPart

/-- Whether the email is the "ready" or the "preparing" variant (the `type`
parameter of `generatePlainTextEmail`). -/
inductive EmailType where
  | ready
  | preparing
deriving Repr, DecidableEq

/-- Embeds `Array.prototype.join('')`: the concatenation of a list of
strings. -/
def joinAll : List String → String
  | [] => ""
  | s :: rest => s ++ joinAll rest

/-- Embeds `Array.prototype.join('\n')` used for the plain-text item
list. -/
def joinNl : List String → String
  | [] => ""
  | [s] => s
  | s :: rest => s ++ "\n" ++ joinNl rest

/-- The HTML-entity map of `escapeHtml`: `some` of the replacement for the
five special characters, `none` for every other character. -/
def htmlEntity (c : Char) : Option String :=
  if c == '&' then some "&amp;"
  else if c == '<' then some "&lt;"
  else if c == '>' then some "&gt;"
  else if c == '\x22' then some "&quot;"
  else if c == '\x27' then some "&#039;"
  else none

/-- Character-by-character replacement underlying
`text.replace(/[&<>"']/g, (m) => map[m])`: a global single-character
class replace substitutes each matched character independently. -/
def replaceSpecial : List Char → List Char
  | [] => []
  | c :: rest =>
    (match htmlEntity c with
     | some e => e.data
     | none => [c]) ++ replaceSpecial rest

/-- Embeds `escapeHtml`. -/
def escapeHtml (text : String) : String :=
  ⟨replaceSpecial text.data⟩

/-- The `FRONTEND_URL`-derived order-status URL shared by all four
templates: `${frontendUrl}/orders/${orderNumber}` with
`process.env.FRONTEND_URL || 'http://localhost:5173'`. -/
def orderUrlOf (env : Env) (orderNumber : String) : String :=
  orDefault env.frontendUrl "http://localhost:5173" ++ "/orders/" ++ orderNumber

/-!
The literal text chunks of the four email templates, copied verbatim from
the template literals in the source; each template function below is the
concatenation of its chunks with the source's interpolation expressions in
between.  Both HTML template methods build their `itemsHtml` with the same
verbatim `items.map` callback, embedded once as `itemLi`.
-/

def liChunk1 : String :=
  "<li style=\x22padding: 8px 0; border-bottom: 1px solid #f0f0f0;\x22>\n        <span style=\x22color: #333333; font-weight: 500;\x22>"

def liChunk2 : String :=
  "x</span> \n        <span style=\x22color: #666666;\x22>"

def liChunk3 : String :=
  "</span>\n      </li>"

def prepChunk1 : String :=
  "\n      <!DOCTYPE html>\n      <html>\n      <head>\n        <meta charset=\x22UTF-8\x22>\n        <meta name=\x22viewport\x22 content=\x22width=device-width, initial-scale=1.0\x22>\n        <title>Pedido en Preparación</title>\n      </head>\n      <body style=\x22margin: 0; padding: 0; font-family: Arial, sans-serif; background-color: #f4f4f4;\x22>\n        <table width=\x22100%\x22 cellpadding=\x220\x22 cellspacing=\x220\x22 style=\x22background-color: #f4f4f4; padding: 20px;\x22>\n          <tr>\n            <td align=\x22center\x22>\n              <table width=\x22600\x22 cellpadding=\x220\x22 cellspacing=\x220\x22 style=\x22background-color: #ffffff; border-radius: 8px; overflow: hidden; box-shadow: 0 2px 4px rgba(0,0,0,0.1);\x22>\n                \n                <!-- Header -->\n                <tr>\n                  <td style=\x22background: linear-gradient(135deg, #ff7e33 0%, #ff5722 100%); padding: 40px 20px; text-align: center;\x22>\n                    <h1 style=\x22color: #ffffff; margin: 0; font-size: 28px;\x22>🍽️ Delicious Kitchen</h1>\n                  </td>\n                </tr>\n                \n                <!-- Body -->\n                <tr>\n                  <td style=\x22padding: 40px 30px;\x22>\n                    <h2 style=\x22color: #333333; margin: 0 0 20px 0;\x22>¡Hola "

def prepChunk2 : String :=
  "! 👋</h2>\n                    \n                    <p style=\x22color: #666666; font-size: 16px; line-height: 1.6; margin: 0 0 20px 0;\x22>\n                      Sabemos que tienes hambre 😋, queremos notificarte que <strong style=\x22color: #ff7e33;\x22>tu pedido ya está en preparación</strong>.\n                    </p>\n                    \n                    <div style=\x22background-color: #fff5f0; border-left: 4px solid #ff7e33; padding: 20px; margin: 30px 0;\x22>\n                      <p style=\x22color: #333333; font-size: 16px; margin: 0 0 15px 0; font-weight: bold;\x22>Tu orden:</p>\n                      <ul style=\x22list-style: none; padding: 0; margin: 0;\x22>\n                        "

def prepChunk3 : String :=
  "\n                      </ul>\n                    </div>\n                    \n                    <p style=\x22color: #666666; font-size: 16px; line-height: 1.6; margin: 30px 0 20px 0;\x22>\n                      Nuestros chefs están trabajando en tu pedido. ¡Pronto estará listo! 👨‍🍳✨\n                    </p>\n                    \n                    <table width=\x22100%\x22 cellpadding=\x220\x22 cellspacing=\x220\x22>\n                      <tr>\n                        <td align=\x22center\x22 style=\x22padding: 20px 0;\x22>\n                          <a href=\x22"

def prepChunk4 : String :=
  "\x22 style=\x22display: inline-block; background: linear-gradient(135deg, #ff7e33 0%, #ff5722 100%); color: #ffffff; text-decoration: none; padding: 15px 40px; border-radius: 5px; font-size: 16px; font-weight: bold; box-shadow: 0 2px 5px rgba(255,126,51,0.3);\x22>\n                            Ver estado del pedido\n                          </a>\n                        </td>\n                      </tr>\n                    </table>\n                    \n                    <p style=\x22color: #999999; font-size: 14px; line-height: 1.6; margin: 30px 0 0 0;\x22>\n                      Gracias por tu preferencia,<br>\n                      <strong style=\x22color: #ff7e33;\x22>Equipo Delicious Kitchen</strong>\n                    </p>\n                  </td>\n                </tr>\n                \n                <!-- Footer -->\n                <tr>\n                  <td style=\x22background-color: #f8f9fa; padding: 20px 30px; text-align: center; border-top: 1px solid #e9ecef;\x22>\n                    <p style=\x22color: #999999; font-size: 12px; margin: 0;\x22>\n                      Este es un email automático, por favor no respondas a este mensaje.\n                    </p>\n                  </td>\n                </tr>\n                \n              </table>\n            </td>\n          </tr>\n        </table>\n      </body>\n      </html>\n    "

def readyChunk1 : String :=
  "\n      <!DOCTYPE html>\n      <html>\n      <head>\n        <meta charset=\x22UTF-8\x22>\n        <meta name=\x22viewport\x22 content=\x22width=device-width, initial-scale=1.0\x22>\n        <title>Pedido Listo</title>\n      </head>\n      <body style=\x22margin: 0; padding: 0; font-family: Arial, sans-serif; background-color: #f4f4f4;\x22>\n        <table width=\x22100%\x22 cellpadding=\x220\x22 cellspacing=\x220\x22 style=\x22background-color: #f4f4f4; padding: 20px;\x22>\n          <tr>\n            <td align=\x22center\x22>\n              <table width=\x22600\x22 cellpadding=\x220\x22 cellspacing=\x220\x22 style=\x22background-color: #ffffff; border-radius: 8px; overflow: hidden; box-shadow: 0 2px 4px rgba(0,0,0,0.1);\x22>\n                \n                <!-- Header -->\n                <tr>\n                  <td style=\x22background: linear-gradient(135deg, #ff7e33 0%, #ff5722 100%); padding: 40px 20px; text-align: center;\x22>\n                    <h1 style=\x22color: #ffffff; margin: 0; font-size: 28px;\x22>🍽️ Delicious Kitchen</h1>\n                  </td>\n                </tr>\n                \n                <!-- Body -->\n                <tr>\n                  <td style=\x22padding: 40px 30px;\x22>\n                    <h2 style=\x22color: #333333; margin: 0 0 20px 0;\x22>¡Hola "

def readyChunk2 : String :=
  "! 👋</h2>\n                    \n                    <p style=\x22color: #666666; font-size: 18px; line-height: 1.6; margin: 0 0 20px 0;\x22>\n                      ¡Tenemos excelentes noticias! <strong style=\x22color: #ff7e33;\x22>Tu pedido está listo</strong> para recoger 🎉\n                    </p>\n                    \n                    <div style=\x22background-color: #fff5f0; border-left: 4px solid #ff7e33; padding: 20px; margin: 30px 0;\x22>\n                      <p style=\x22color: #333333; font-size: 16px; margin: 0 0 15px 0; font-weight: bold;\x22>Tu orden:</p>\n                      <ul style=\x22list-style: none; padding: 0; margin: 0;\x22>\n                        "

def readyChunk3 : String :=
  "\n                      </ul>\n                    </div>\n                    \n                    <p style=\x22color: #666666; font-size: 16px; line-height: 1.6; margin: 30px 0 20px 0;\x22>\n                      Por favor pasa por nuestro restaurante cuando puedas. ¡Tu comida te está esperando! 🥘\n                    </p>\n                    \n                    <table width=\x22100%\x22 cellpadding=\x220\x22 cellspacing=\x220\x22>\n                      <tr>\n                        <td align=\x22center\x22 style=\x22padding: 10px 0;\x22>\n                          <a href=\x22"

def readyChunk4 : String :=
  "\x22 style=\x22display: inline-block; background: linear-gradient(135deg, #ff7e33 0%, #ff5722 100%); color: #ffffff; text-decoration: none; padding: 15px 40px; border-radius: 5px; font-size: 16px; font-weight: bold; box-shadow: 0 2px 5px rgba(255,126,51,0.3);\x22>\n                            Ver estado del pedido\n                          </a>\n                        </td>\n                      </tr>\n                      <tr>\n                        <td align=\x22center\x22 style=\x22padding: 10px 0;\x22>\n                          <a href=\x22"

def readyChunk5 : String :=
  "\x22 style=\x22display: inline-block; background-color: #ffffff; color: #ff7e33; text-decoration: none; padding: 15px 40px; border-radius: 5px; font-size: 16px; font-weight: bold; border: 2px solid #ff7e33;\x22>\n                            ⭐ Dejar una reseña\n                          </a>\n                        </td>\n                      </tr>\n                    </table>\n                    \n                    <p style=\x22color: #999999; font-size: 14px; line-height: 1.6; margin: 30px 0 0 0;\x22>\n                      Gracias por tu preferencia,<br>\n                      <strong style=\x22color: #ff7e33;\x22>Equipo Delicious Kitchen</strong>\n                    </p>\n                  </td>\n                </tr>\n                \n                <!-- Footer -->\n                <tr>\n                  <td style=\x22background-color: #f8f9fa; padding: 20px 30px; text-align: center; border-top: 1px solid #e9ecef;\x22>\n                    <p style=\x22color: #999999; font-size: 12px; margin: 0;\x22>\n                      Este es un email automático, por favor no respondas a este mensaje.\n                    </p>\n                  </td>\n                </tr>\n                \n              </table>\n            </td>\n          </tr>\n        </table>\n      </body>\n      </html>\n    "

def plainPrepChunk1 : String :=
  "Hola "

def plainPrepChunk2 : String :=
  ",\n\nSabemos que tienes hambre y queremos notificarte que tu pedido ya está en preparación.\n\nTu orden:\n"

def plainPrepChunk3 : String :=
  "\n\nPuedes ver el estado de tu pedido en:\n"

def plainPrepChunk4 : String :=
  "\n\n¡Pronto estará listo!\n\nGracias por tu preferencia,\nEquipo Delicious Kitchen\n\n---\nEste es un email automático, por favor no respondas a este mensaje."

def plainReadyChunk1 : String :=
  "Hola "

def plainReadyChunk2 : String :=
  ",\n\n¡Tenemos excelentes noticias! Tu pedido está listo para recoger.\n\nTu orden:\n"

def plainReadyChunk3 : String :=
  "\n\nPuedes ver el estado de tu pedido en:\n"

def plainReadyChunk4 : String :=
  "\n\nTambién puedes dejar tu reseña aquí:\n"

def plainReadyChunk5 : String :=
  "\n\nPor favor pasa por nuestro restaurante cuando puedas. ¡Tu comida te está esperando!\n\nGracias por tu preferencia,\nEquipo Delicious Kitchen\n\n---\nEste es un email automático, por favor no respondas a este mensaje."

/-- The per-item `<li>` of the HTML templates:
`` `${item.quantity}x` `` styled spans with `escapeHtml(item.name)`. -/
def itemLi (item : OrderItem) : String :=
  liChunk1 ++ toString item.quantity ++ liChunk2 ++ escapeHtml item.name ++ liChunk3

/-- The `itemsHtml` value: `items.map(...).join('')`. -/
def itemsHtmlOf (items : List OrderItem) : String :=
  joinAll (items.map itemLi)

/-- Embeds `generatePreparingEmailTemplate`. -/
def generatePreparingEmailTemplate (env : Env) (orderNumber customerName : String)
    (items : List OrderItem) : String :=
  prepChunk1 ++ escapeHtml customerName ++ prepChunk2 ++ itemsHtmlOf items ++
    prepChunk3 ++ orderUrlOf env orderNumber ++ prepChunk4

/-- Embeds `generateReadyEmailTemplate`. -/
def generateReadyEmailTemplate (env : Env) (orderNumber customerName : String)
    (items : List OrderItem) : String :=
  readyChunk1 ++ escapeHtml customerName ++ readyChunk2 ++ itemsHtmlOf items ++
    readyChunk3 ++ orderUrlOf env orderNumber ++ readyChunk4 ++
    orderUrlOf env orderNumber ++ readyChunk5

/-- Embeds `generatePlainTextEmail`; `itemsList` is
`items.map(item => ` ++ "- ${item.quantity}x ${item.name}" ++ `).join('\n')`. -/
def generatePlainTextEmail (env : Env) (orderNumber customerName : String)
    (items : List OrderItem) (type_ : EmailType) : String :=
  let itemsList := joinNl (items.map (fun item =>
    "- " ++ toString item.quantity ++ "x " ++ item.name))
  let orderUrl := orderUrlOf env orderNumber
  if type_ == EmailType.preparing then
    plainPrepChunk1 ++ customerName ++ plainPrepChunk2 ++ itemsList ++
      plainPrepChunk3 ++ orderUrl ++ plainPrepChunk4
  else
    plainReadyChunk1 ++ customerName ++ plainReadyChunk2 ++ itemsList ++
      plainReadyChunk3 ++ orderUrl ++ plainReadyChunk4 ++ orderUrl ++ plainReadyChunk5

/-- The default sender identity used when `EMAIL_FROM` is unset or empty:
`'"Delicious Kitchen" <noreply@deliciouskitchen.com>'`. -/
def defaultFromIdentity : String :=
  "\x22Delicious Kitchen\x22 <noreply@deliciouskitchen.com>"

/-- The `mailOptions` object handed to `transporter.sendMail`. -/
structure MailOptions where
  «from» : String
  «to» : String
  subject : String
  html : String
  text : String
deriving Repr, DecidableEq

/-- Behaviour of the `transporter.sendMail` collaborator: the result of its
n-th invocation (0-indexed), `.ok messageId` when the returned promise
resolves, `.error message` when it rejects / throws. -/
abbrev Transport := Nat → Except String String

/-- Observable outcome of one call to a notification method: the boolean
the method resolves with, the number of `transporter.sendMail` invocations
it made, and the payloads it handed to them in order. -/
structure SendOutcome where
  result : Bool
  sendCalls : Nat
  payloads : List MailOptions
deriving Repr, DecidableEq

/-- The `mailOptions` object built by `sendOrderReadyNotification`. -/
def readyMailOptions (env : Env) (orderNumber customerName customerEmail : String)
    (items : List OrderItem) : MailOptions :=
  { «from» := orDefault env.emailFrom defaultFromIdentity
    «to» := customerEmail
    subject := "� ¡Tu pedido está listo para recoger!"
    html := generateReadyEmailTemplate env orderNumber customerName items
    text := generatePlainTextEmail env orderNumber customerName items EmailType.ready }

/-- The `mailOptions` object built by `sendOrderPreparingNotification`. -/
def preparingMailOptions (env : Env) (orderNumber customerName customerEmail : String)
    (items : List OrderItem) : MailOptions :=
  { «from» := orDefault env.emailFrom defaultFromIdentity
    «to» := customerEmail
    subject := "👨‍🍳 Tu pedido ya está en preparación"
    html := generatePreparingEmailTemplate env orderNumber customerName items
    text := generatePlainTextEmail env orderNumber customerName items EmailType.preparing }

/-- Embeds `sendOrderReadyNotification`.  Guard clauses in source order:
unconfigured service, invalid email, then
`!orderNumber || !customerName || !items || items.length === 0`; each
returns `false` without touching the transporter.  Otherwise the method
builds `mailOptions`, awaits `transporter.sendMail` inside `try`, resolves
`true` on success and — in the `catch` — `false` on any thrown error. -/
def sendOrderReadyNotification (st : ServiceState) (env : Env) (transport : Transport)
    (orderNumber customerName customerEmail : String) (items : List OrderItem) :
    Except String SendOutcome :=
  if !st.isConfigured then
    .ok { result := false, sendCalls := 0, payloads := [] }
  else if !isValidEmail customerEmail then
    .ok { result := false, sendCalls := 0, payloads := [] }
  else if orderNumber == "" || customerName == "" || items.isEmpty then
    .ok { result := false, sendCalls := 0, payloads := [] }
  else
    let mailOptions : MailOptions :=
      readyMailOptions env orderNumber customerName customerEmail items
    match transport 0 with
    | .ok _ => .ok { result := true, sendCalls := 1, payloads := [mailOptions] }
    | .error _ => .ok { result := false, sendCalls := 1, payloads := [mailOptions] }

/-- Embeds `sendOrderPreparingNotification`: identical guard clauses and
try/catch structure, differing only in `subject`, `html` and `text`. -/
def sendOrderPreparingNotification (st : ServiceState) (env : Env) (transport : Transport)
    (orderNumber customerName customerEmail : String) (items : List OrderItem) :
    Except String SendOutcome :=
  if !st.isConfigured then
    .ok { result := false, sendCalls := 0, payloads := [] }
  else if !isValidEmail customerEmail then
    .ok { result := false, sendCalls := 0, payloads := [] }
  else if orderNumber == "" || customerName == "" || items.isEmpty then
    .ok { result := false, sendCalls := 0, payloads := [] }
  else
    let mailOptions : MailOptions :=
      preparingMailOptions env orderNumber customerName customerEmail items
    match transport 0 with
    | .ok _ => .ok { result := true, sendCalls := 1, payloads := [mailOptions] }
    | .error _ => .ok { result := false, sendCalls := 1, payloads := [mailOptions] }

/-- Models calling `.close()` on the `transporter` field: in TypeScript the
field is declared with a definite-assignment assertion, so if it was never
assigned the call would throw a `TypeError` at runtime. -/
def transporterCloseCall (assigned : Bool) : Except String Unit :=
  if assigned then .ok () else .error "TypeError: this.transporter is undefined"

/-- Embeds `close`: the `if (this.transporter)` guard, then
`this.transporter.close()`.  Returns the number of close operations
performed. -/
def close (st : ServiceState) : Except String Nat :=
  if st.transporterAssigned then
    match transporterCloseCall st.transporterAssigned with
    | .ok _ => .ok 1
    | .error e => .error e
  else
    .ok 0


/-!
Helper lemmas shared by several claim proofs.
-/

/-- Appending strings appends their character data (definitional). -/
theorem dataAppend (a b : String) : (a ++ b).data = a.data ++ b.data := rfl

/-- String append is associative. -/
theorem strAppendAssoc (a b c : String) : a ++ b ++ c = a ++ (b ++ c) := by
  apply String.ext
  simp [dataAppend]

/-- The character-wise replace distributes over list append. -/
theorem replaceSpecial_append (l₁ l₂ : List Char) :
    replaceSpecial (l₁ ++ l₂) = replaceSpecial l₁ ++ replaceSpecial l₂ := by
  induction l₁ with
  | nil => rfl
  | cons c rest ih => simp [replaceSpecial, ih]

/-- The character-wise replace is the concatenation of the per-character
entity table. -/
theorem replaceSpecial_eq_flatMap (l : List Char) :
    replaceSpecial l =
      l.flatMap (fun ch =>
        match htmlEntity ch with
        | some e => e.data
        | none => [ch]) := by
  induction l with
  | nil => rfl
  | cons c rest ih => simp [replaceSpecial, ih]

/-- A member of a mapped-and-joined list contributes a contiguous segment of
the joined string. -/
theorem joinAll_decomp {α : Type} (f : α → String) {items : List α} {it : α}
    (h : it ∈ items) :
    ∃ p q : String, joinAll (items.map f) = p ++ f it ++ q := by
  induction items with
  | nil => cases h
  | cons x xs ih =>
    cases h with
    | head =>
      refine ⟨"", joinAll (xs.map f), ?_⟩
      simp [joinAll]
    | tail _ hmem =>
      obtain ⟨p, q, hpq⟩ := ih hmem
      refine ⟨f x ++ p, q, ?_⟩
      simp [joinAll, hpq, strAppendAssoc]

/-- Whether the first `transporter.sendMail` call of a transport behaviour
succeeds. -/
def sendSucceeds (transport : Transport) : Bool :=
  match transport 0 with
  | .ok _ => true
  | .error _ => false

/-!
Claim theorems.
-/

/-- C1 (evaluation of the code at the claim's failing input): against a
transport that fails on every invocation, a fully valid request makes the
shipped `sendOrderReadyNotification` invoke `sendMail` exactly ONCE and
resolve `false` — there is no retry loop, no second or third attempt and no
backoff wait, contradicting the claimed 3-attempt ExhaustedRetries
behaviour (which the repository's own README and E2E guide document). -/
theorem claim_C1_single_attempt_not_three :
    (sendOrderReadyNotification ⟨true, true⟩
        ⟨some "smtp.gmail.com", some "user", some "pass", none, none⟩
        (fun _ => .error "Invalid login")
        "ORD-1" "Ana" "ana@example.com" [{ name := "Taco", quantity := 2 }]).map
      (fun o => (o.result, o.sendCalls)) = .ok (false, 1) := by rfl

/-- C2: a delivery request whose recipient address fails the syntactic
email check is rejected before any transporter interaction: the method
resolves `false` with zero `sendMail` calls, for every service state,
environment and transport behaviour. -/
theorem claim_C2_invalid_email_rejected (st : ServiceState) (env : Env)
    (transport : Transport) (orderNumber customerName customerEmail : String)
    (items : List OrderItem) (h : isValidEmail customerEmail = false) :
    sendOrderReadyNotification st env transport orderNumber customerName customerEmail items =
      .ok { result := false, sendCalls := 0, payloads := [] } := by
  unfold sendOrderReadyNotification
  cases hc : st.isConfigured <;> simp [hc, h]

/-- Witness for C2 at the spec's example address `"not-an-email"`. -/
theorem claim_C2_witness :
    isValidEmail "not-an-email" = false ∧
    sendOrderReadyNotification ⟨true, true⟩
        ⟨some "smtp.gmail.com", some "user", some "pass", none, none⟩
        (fun _ => .ok "msg-id") "ORD-1" "Ana" "not-an-email"
        [{ name := "Taco", quantity := 2 }] =
      .ok { result := false, sendCalls := 0, payloads := [] } :=
  ⟨by decide, claim_C2_invalid_email_rejected _ _ _ _ _ _ _ (by decide)⟩

/-- C3: when the service reports itself unconfigured — SMTP credentials
missing or empty at construction, or SMTP connection verification failed —
both notification methods short-circuit to a failed outcome with zero
`sendMail` calls, for every subsequent request and transport behaviour. -/
theorem claim_C3_unconfigured_short_circuits (env : Env) (verifySucceeds : Bool)
    (h : truthy env.smtpHost = false ∨ truthy env.smtpUser = false ∨
         truthy env.smtpPassword = false ∨ verifySucceeds = false)
    (transport : Transport) (orderNumber customerName customerEmail : String)
    (items : List OrderItem) :
    sendOrderReadyNotification (initializeTransporter env verifySucceeds) env transport
        orderNumber customerName customerEmail items =
      .ok { result := false, sendCalls := 0, payloads := [] } ∧
    sendOrderPreparingNotification (initializeTransporter env verifySucceeds) env transport
        orderNumber customerName customerEmail items =
      .ok { result := false, sendCalls := 0, payloads := [] } := by
  have hcfg : (initializeTransporter env verifySucceeds).isConfigured = false := by
    unfold initializeTransporter
    rcases h with h | h | h | h
    · simp [h]
    · simp [h]
    · simp [h]
    · simp only [h]
      split <;> rfl
  constructor
  · unfold sendOrderReadyNotification
    simp [hcfg]
  · unfold sendOrderPreparingNotification
    simp [hcfg]

/-- Witness for C3: missing SMTP host at construction. -/
theorem claim_C3_witness :
    sendOrderReadyNotification
        (initializeTransporter ⟨none, some "user", some "pass", none, none⟩ true)
        ⟨none, some "user", some "pass", none, none⟩
        (fun _ => .ok "msg-id") "ORD-1" "Ana" "ana@example.com"
        [{ name := "Taco", quantity := 2 }] =
      .ok { result := false, sendCalls := 0, payloads := [] } ∧
    sendOrderPreparingNotification
        (initializeTransporter ⟨none, some "user", some "pass", none, none⟩ true)
        ⟨none, some "user", some "pass", none, none⟩
        (fun _ => .ok "msg-id") "ORD-1" "Ana" "ana@example.com"
        [{ name := "Taco", quantity := 2 }] =
      .ok { result := false, sendCalls := 0, payloads := [] } :=
  claim_C3_unconfigured_short_circuits _ _ (Or.inl (by decide)) _ _ _ _ _

/-- C5 (evaluation of the code at the claim's failing input): against a
transport that fails on its first invocation and would succeed on a second,
the shipped code makes exactly ONE `sendMail` call and resolves `false`;
the claimed fail-once-then-delivered behaviour (2 invocations, success)
does not happen because there is no retry loop. -/
theorem claim_C5_no_second_attempt :
    (sendOrderReadyNotification ⟨true, true⟩
        ⟨some "smtp.gmail.com", some "user", some "pass", none, none⟩
        (fun n => if n == 0 then .error "ECONNRESET" else .ok "msg-2")
        "ORD-2" "Luis" "luis@example.com" [{ name := "Burrito", quantity := 1 }]).map
      (fun o => (o.result, o.sendCalls)) = .ok (false, 1) := by rfl

/-- C8: an empty items list is an additional rejection condition: both
methods resolve `false` with zero `sendMail` calls whenever `items` is
empty, regardless of the other fields, the state, the environment and the
transport behaviour. -/
theorem claim_C8_empty_items_rejected (st : ServiceState) (env : Env)
    (transport : Transport) (orderNumber customerName customerEmail : String) :
    sendOrderReadyNotification st env transport orderNumber customerName customerEmail [] =
      .ok { result := false, sendCalls := 0, payloads := [] } ∧
    sendOrderPreparingNotification st env transport orderNumber customerName customerEmail [] =
      .ok { result := false, sendCalls := 0, payloads := [] } := by
  constructor
  · unfold sendOrderReadyNotification
    cases hc : st.isConfigured <;> cases hv : isValidEmail customerEmail <;>
      simp [hc, hv]
  · unfold sendOrderPreparingNotification
    cases hc : st.isConfigured <;> cases hv : isValidEmail customerEmail <;>
      simp [hc, hv]

/-- C4: neither notification method ever propagates an exception to its
caller: for every service state, environment, request and transport
behaviour (including a throwing `sendMail`) both methods return `.ok` — the
`catch` converts any thrown error into a `false` resolution — and the
resolved boolean is `true` only when a `sendMail` call was made and
succeeded. -/
theorem claim_C4_no_exception_escapes (st : ServiceState) (env : Env)
    (transport : Transport) (orderNumber customerName customerEmail : String)
    (items : List OrderItem) :
    ∃ o p : SendOutcome,
      sendOrderReadyNotification st env transport orderNumber customerName customerEmail items =
        .ok o ∧
      sendOrderPreparingNotification st env transport orderNumber customerName customerEmail items =
        .ok p ∧
      o.result = (o.sendCalls == 1 && sendSucceeds transport) ∧
      p.result = (p.sendCalls == 1 && sendSucceeds transport) := by
  unfold sendOrderReadyNotification sendOrderPreparingNotification
  cases hc : st.isConfigured
  · exact ⟨{ result := false, sendCalls := 0, payloads := [] },
      { result := false, sendCalls := 0, payloads := [] },
      by simp, by simp, by simp, by simp⟩
  · cases hv : isValidEmail customerEmail
    · exact ⟨{ result := false, sendCalls := 0, payloads := [] },
        { result := false, sendCalls := 0, payloads := [] },
        by simp [hv], by simp [hv], by simp, by simp⟩
    · cases hg : (orderNumber == "" || customerName == "" || items.isEmpty)
      · cases ht : transport 0 with
        | ok msg =>
          exact ⟨⟨true, 1, [readyMailOptions env orderNumber customerName customerEmail items]⟩,
            ⟨true, 1, [preparingMailOptions env orderNumber customerName customerEmail items]⟩,
            by simp [hv, hg, ht], by simp [hv, hg, ht],
            by simp [sendSucceeds, ht], by simp [sendSucceeds, ht]⟩
        | error e =>
          exact ⟨⟨false, 1, [readyMailOptions env orderNumber customerName customerEmail items]⟩,
            ⟨false, 1, [preparingMailOptions env orderNumber customerName customerEmail items]⟩,
            by simp [hv, hg, ht], by simp [hv, hg, ht],
            by simp [sendSucceeds, ht], by simp [sendSucceeds, ht]⟩
      · exact ⟨{ result := false, sendCalls := 0, payloads := [] },
          { result := false, sendCalls := 0, payloads := [] },
          by simp [hv, hg], by simp [hv, hg], by simp, by simp⟩

/-- C6: the ready and preparing flows are observationally identical in
everything but the rendered content: for every input and every transport
behaviour they produce the same exception-freedom, the same resolved
boolean, the same number of `sendMail` calls, and payloads with the same
`to` and `from` fields — only `subject`, `html` and `text` differ. -/
theorem claim_C6_flows_agree (st : ServiceState) (env : Env)
    (transport : Transport) (orderNumber customerName customerEmail : String)
    (items : List OrderItem) :
    (sendOrderReadyNotification st env transport orderNumber customerName customerEmail items).map
        (fun o => (o.result, o.sendCalls, o.payloads.map (fun m => (m.«to», m.«from»)))) =
    (sendOrderPreparingNotification st env transport orderNumber customerName customerEmail items).map
        (fun o => (o.result, o.sendCalls, o.payloads.map (fun m => (m.«to», m.«from»)))) := by
  unfold sendOrderReadyNotification sendOrderPreparingNotification
  cases hc : st.isConfigured
  · simp
  · cases hv : isValidEmail customerEmail
    · simp [hv]
    · cases hg : (orderNumber == "" || customerName == "" || items.isEmpty)
      · cases ht : transport 0 <;> simp [hv, hg, ht] <;> rfl
      · simp [hv, hg]

/-- C7: a request that reaches the send step hands the transporter exactly
one payload of shape `{ to, from, subject, html, text }` whose `to` is the
request's recipient address and whose `from` is the `EMAIL_FROM` value when
that variable is set non-empty and the fixed default sender identity when
it is unset; this holds for both notification methods. -/
theorem claim_C7_payload_to_and_from (st : ServiceState) (env : Env)
    (transport : Transport) (orderNumber customerName customerEmail : String)
    (items : List OrderItem)
    (hcfg : st.isConfigured = true) (hmail : isValidEmail customerEmail = true)
    (hfields : (orderNumber == "" || customerName == "" || items.isEmpty) = false) :
    ∃ o q : SendOutcome, ∃ m n : MailOptions,
      sendOrderReadyNotification st env transport orderNumber customerName customerEmail items =
        .ok o ∧
      sendOrderPreparingNotification st env transport orderNumber customerName customerEmail items =
        .ok q ∧
      o.payloads = [m] ∧ q.payloads = [n] ∧
      m.«to» = customerEmail ∧ n.«to» = customerEmail ∧
      (env.emailFrom = none → m.«from» = defaultFromIdentity ∧ n.«from» = defaultFromIdentity) ∧
      (∀ sdr, env.emailFrom = some sdr → (sdr == "") = false →
        m.«from» = sdr ∧ n.«from» = sdr) := by
  unfold sendOrderReadyNotification sendOrderPreparingNotification
  have hfrom1 : env.emailFrom = none →
      (readyMailOptions env orderNumber customerName customerEmail items).«from» =
        defaultFromIdentity ∧
      (preparingMailOptions env orderNumber customerName customerEmail items).«from» =
        defaultFromIdentity := by
    intro hnone
    constructor <;> simp [readyMailOptions, preparingMailOptions, orDefault, hnone]
  have hfrom2 : ∀ sdr, env.emailFrom = some sdr → (sdr == "") = false →
      (readyMailOptions env orderNumber customerName customerEmail items).«from» = sdr ∧
      (preparingMailOptions env orderNumber customerName customerEmail items).«from» = sdr := by
    intro sdr hsome hne
    constructor <;> simp [readyMailOptions, preparingMailOptions, orDefault, hsome, hne]
  cases ht : transport 0 with
  | ok msg =>
    exact ⟨⟨true, 1, [readyMailOptions env orderNumber customerName customerEmail items]⟩,
      ⟨true, 1, [preparingMailOptions env orderNumber customerName customerEmail items]⟩,
      readyMailOptions env orderNumber customerName customerEmail items,
      preparingMailOptions env orderNumber customerName customerEmail items,
      by simp [hcfg, hmail, hfields, ht], by simp [hcfg, hmail, hfields, ht],
      rfl, rfl, rfl, rfl, hfrom1, hfrom2⟩
  | error e =>
    exact ⟨⟨false, 1, [readyMailOptions env orderNumber customerName customerEmail items]⟩,
      ⟨false, 1, [preparingMailOptions env orderNumber customerName customerEmail items]⟩,
      readyMailOptions env orderNumber customerName customerEmail items,
      preparingMailOptions env orderNumber customerName customerEmail items,
      by simp [hcfg, hmail, hfields, ht], by simp [hcfg, hmail, hfields, ht],
      rfl, rfl, rfl, rfl, hfrom1, hfrom2⟩

/-- Witness for C7: one instantiation with `EMAIL_FROM` set and one with it
unset. -/
theorem claim_C7_witness :
    (∃ o q : SendOutcome, ∃ m n : MailOptions,
      sendOrderReadyNotification ⟨true, true⟩
          ⟨some "smtp.gmail.com", some "user", some "pass", some "Kitchen <k@example.com>", none⟩
          (fun _ => .ok "msg-id") "ORD-1" "Ana" "ana@example.com"
          [{ name := "Taco", quantity := 2 }] = .ok o ∧
      sendOrderPreparingNotification ⟨true, true⟩
          ⟨some "smtp.gmail.com", some "user", some "pass", some "Kitchen <k@example.com>", none⟩
          (fun _ => .ok "msg-id") "ORD-1" "Ana" "ana@example.com"
          [{ name := "Taco", quantity := 2 }] = .ok q ∧
      o.payloads = [m] ∧ q.payloads = [n] ∧
      m.«to» = "ana@example.com" ∧ n.«to» = "ana@example.com" ∧
      ((⟨some "smtp.gmail.com", some "user", some "pass", some "Kitchen <k@example.com>", none⟩ : Env).emailFrom = none →
        m.«from» = defaultFromIdentity ∧ n.«from» = defaultFromIdentity) ∧
      (∀ sdr, (⟨some "smtp.gmail.com", some "user", some "pass", some "Kitchen <k@example.com>", none⟩ : Env).emailFrom = some sdr →
        (sdr == "") = false → m.«from» = sdr ∧ n.«from» = sdr)) ∧
    (∃ o q : SendOutcome, ∃ m n : MailOptions,
      sendOrderReadyNotification ⟨true, true⟩
          ⟨some "smtp.gmail.com", some "user", some "pass", none, none⟩
          (fun _ => .ok "msg-id") "ORD-1" "Ana" "ana@example.com"
          [{ name := "Taco", quantity := 2 }] = .ok o ∧
      sendOrderPreparingNotification ⟨true, true⟩
          ⟨some "smtp.gmail.com", some "user", some "pass", none, none⟩
          (fun _ => .ok "msg-id") "ORD-1" "Ana" "ana@example.com"
          [{ name := "Taco", quantity := 2 }] = .ok q ∧
      o.payloads = [m] ∧ q.payloads = [n] ∧
      m.«to» = "ana@example.com" ∧ n.«to» = "ana@example.com" ∧
      ((⟨some "smtp.gmail.com", some "user", some "pass", none, none⟩ : Env).emailFrom = none →
        m.«from» = defaultFromIdentity ∧ n.«from» = defaultFromIdentity) ∧
      (∀ sdr, (⟨some "smtp.gmail.com", some "user", some "pass", none, none⟩ : Env).emailFrom = some sdr →
        (sdr == "") = false → m.«from» = sdr ∧ n.«from» = sdr)) :=
  ⟨claim_C7_payload_to_and_from _ _ _ _ _ _ _ (by decide) (by decide) (by decide),
   claim_C7_payload_to_and_from _ _ _ _ _ _ _ (by decide) (by decide) (by decide)⟩

/-- C10: `close` never throws: on every state it returns normally, and for
a service constructed from any environment it performs exactly one
transporter close when the SMTP credentials were all present (so the
transporter field was assigned) and no action at all when any credential
was missing or empty. -/
theorem claim_C10_close_is_safe (st : ServiceState) (env : Env) (verifySucceeds : Bool) :
    (∃ n : Nat, close st = .ok n) ∧
    close (initializeTransporter env verifySucceeds) =
      .ok (if truthy env.smtpHost && truthy env.smtpUser && truthy env.smtpPassword
           then 1 else 0) := by
  constructor
  · cases ha : st.transporterAssigned
    · exact ⟨0, by simp [close, ha]⟩
    · exact ⟨1, by simp [close, ha, transporterCloseCall]⟩
  · unfold initializeTransporter
    cases hh : truthy env.smtpHost <;> cases hu : truthy env.smtpUser <;>
      cases hp : truthy env.smtpPassword <;>
      simp [close, transporterCloseCall]

/-- C9: `escapeHtml` rewrites a string character by character, replacing
each of `&`, `<`, `>`, `\x22`, `\x27` by its HTML entity and leaving every
other character unchanged (it is an append-homomorphism determined by its
value on single characters), and both HTML template bodies interpolate the
customer name and every item name only through `escapeHtml`. -/
theorem claim_C9_escapeHtml_and_templates (a b : String) (c : Char) (env : Env)
    (orderNumber customerName : String) (items : List OrderItem) (it : OrderItem)
    (hc : htmlEntity c = none) (hit : it ∈ items) :
    (escapeHtml a).data = a.data.flatMap (fun ch =>
        match htmlEntity ch with
        | some e => e.data
        | none => [ch]) ∧
    escapeHtml (a ++ b) = escapeHtml a ++ escapeHtml b ∧
    escapeHtml "&" = "&amp;" ∧ escapeHtml "<" = "&lt;" ∧ escapeHtml ">" = "&gt;" ∧
    escapeHtml "\x22" = "&quot;" ∧ escapeHtml "\x27" = "&#039;" ∧
    escapeHtml ⟨[c]⟩ = ⟨[c]⟩ ∧
    (∃ p q : String, generateReadyEmailTemplate env orderNumber customerName items =
        p ++ escapeHtml customerName ++ q) ∧
    (∃ p q : String, generatePreparingEmailTemplate env orderNumber customerName items =
        p ++ escapeHtml customerName ++ q) ∧
    (∃ p q : String, generateReadyEmailTemplate env orderNumber customerName items =
        p ++ escapeHtml it.name ++ q) ∧
    (∃ p q : String, generatePreparingEmailTemplate env orderNumber customerName items =
        p ++ escapeHtml it.name ++ q) := by
  obtain ⟨p, q, hpq⟩ := joinAll_decomp itemLi hit
  refine ⟨replaceSpecial_eq_flatMap a.data, ?_, by decide, by decide, by decide,
    by decide, by decide, ?_, ?_, ?_, ?_, ?_⟩
  · apply String.ext
    simp [escapeHtml, dataAppend, replaceSpecial_append]
  · apply String.ext
    simp [escapeHtml, replaceSpecial, hc]
  · refine ⟨readyChunk1,
      readyChunk2 ++ itemsHtmlOf items ++ readyChunk3 ++ orderUrlOf env orderNumber ++
        readyChunk4 ++ orderUrlOf env orderNumber ++ readyChunk5, ?_⟩
    simp [generateReadyEmailTemplate, strAppendAssoc]
  · refine ⟨prepChunk1,
      prepChunk2 ++ itemsHtmlOf items ++ prepChunk3 ++ orderUrlOf env orderNumber ++
        prepChunk4, ?_⟩
    simp [generatePreparingEmailTemplate, strAppendAssoc]
  · refine ⟨readyChunk1 ++ escapeHtml customerName ++ readyChunk2 ++ p ++ liChunk1 ++
        toString it.quantity ++ liChunk2,
      liChunk3 ++ q ++ readyChunk3 ++ orderUrlOf env orderNumber ++ readyChunk4 ++
        orderUrlOf env orderNumber ++ readyChunk5, ?_⟩
    simp [generateReadyEmailTemplate, itemsHtmlOf, hpq, itemLi, strAppendAssoc]
  · refine ⟨prepChunk1 ++ escapeHtml customerName ++ prepChunk2 ++ p ++ liChunk1 ++
        toString it.quantity ++ liChunk2,
      liChunk3 ++ q ++ prepChunk3 ++ orderUrlOf env orderNumber ++ prepChunk4, ?_⟩
    simp [generatePreparingEmailTemplate, itemsHtmlOf, hpq, itemLi, strAppendAssoc]

/-- Witness for C9 at a concrete name, item and environment. -/
theorem claim_C9_witness :
    (escapeHtml "a&").data = "a&".data.flatMap (fun ch =>
        match htmlEntity ch with
        | some e => e.data
        | none => [ch]) ∧
    escapeHtml ("a&" ++ "<b>") = escapeHtml "a&" ++ escapeHtml "<b>" ∧
    escapeHtml "&" = "&amp;" ∧ escapeHtml "<" = "&lt;" ∧ escapeHtml ">" = "&gt;" ∧
    escapeHtml "\x22" = "&quot;" ∧ escapeHtml "\x27" = "&#039;" ∧
    escapeHtml (String.mk ['x']) = String.mk ['x'] ∧
    (∃ p q : String, generateReadyEmailTemplate ⟨none, none, none, none, none⟩
        "ORD-1" "Ana" [{ name := "Taco", quantity := 2 }] =
        p ++ escapeHtml "Ana" ++ q) ∧
    (∃ p q : String, generatePreparingEmailTemplate ⟨none, none, none, none, none⟩
        "ORD-1" "Ana" [{ name := "Taco", quantity := 2 }] =
        p ++ escapeHtml "Ana" ++ q) ∧
    (∃ p q : String, generateReadyEmailTemplate ⟨none, none, none, none, none⟩
        "ORD-1" "Ana" [{ name := "Taco", quantity := 2 }] =
        p ++ escapeHtml "Taco" ++ q) ∧
    (∃ p q : String, generatePreparingEmailTemplate ⟨none, none, none, none, none⟩
        "ORD-1" "Ana" [{ name := "Taco", quantity := 2 }] =
        p ++ escapeHtml "Taco" ++ q) :=
  claim_C9_escapeHtml_and_templates "a&" "<b>" 'x' ⟨none, none, none, none, none⟩
    "ORD-1" "Ana" [{ name := "Taco", quantity := 2 }] { name := "Taco", quantity := 2 }
    (by decide) (by simp)

end DeliciousKitchen
